import Mathlib

/-!
Verification of the SYU-GPT retrieval-augmented chatbot (src/main.py).

The embedding models the pipeline of `main.py`: the per-file chunk
configuration table, the chunker, index construction, the answer
generator with its exception-to-string boundary, the memoization layer
in front of it, and the transcript handling of the main loop.
Third-party library behaviour that the repository only calls
(`CharacterTextSplitter`, `functools.lru_cache`) is modelled from the
specification, as marked on the corresponding definitions.
-/

set_option maxRecDepth 4000

namespace SYUGPT

/-- Boolean prefix test on strings, the semantics of the Python
`str.startswith` check used at line 186 of `main.py`. -/
def strStartsWith (s marker : String) : Bool :=
  marker.data.isPrefixOf s.data

/-- The per-file chunk configuration table of
`initialize_embeddings_and_docsearch` (src/main.py lines 48-67):
filename mapped to (chunk_size, chunk_overlap). -/
def configList : List (String × Nat × Nat) :=
  [("introduce.txt", 1500, 300),
   ("관련 링크 data.txt", 1500, 300),
   ("교통 data.txt", 1500, 300),
   ("도서관 data.txt", 2000, 300),
   ("동아리 data.txt", 4500, 300),
   ("등록 data.txt", 2000, 300),
   ("성적 data.txt", 1500, 300),
   ("셔틀버스 data.txt", 1000, 300),
   ("수강신청 data.txt", 1500, 250),
   ("시설 정보 data.txt", 2000, 350),
   ("업무별 전화번호 data.txt", 1000, 200),
   ("장학금 data.txt", 4000, 100),
   ("졸업 data.txt", 1200, 250),
   ("증명서 data.txt", 2000, 250),
   ("학과 data.txt", 7000, 500),
   ("학사 일정 data.txt", 1500, 200),
   ("후문 정보 data.txt", 2000, 300),
   ("학교 건물 data.txt", 3000, 100)]

/-- Exact-filename lookup into the configuration table, the semantics of
`config.get(file_name, {})` in src/main.py line 68. -/
def configLookup (file_name : String) : Option (Nat × Nat) :=
  (configList.find? (fun p => decide (p.1 = file_name))).map (fun p => p.2)

/-- `config.get(file_name, {}).get('chunk_size', 1500)` (src/main.py line 68). -/
def getChunkSize (file_name : String) : Nat :=
  ((configLookup file_name).map (fun c => c.1)).getD 1500

/-- `config.get(file_name, {}).get('chunk_overlap', 300)` (src/main.py line 69). -/
def getChunkOverlap (file_name : String) : Nat :=
  ((configLookup file_name).map (fun c => c.2)).getD 300

/-- Modelled from the spec: the stride between consecutive chunk start
positions of the text splitter, chunk size minus overlap.  The splitter
itself (`CharacterTextSplitter`) is third-party library code absent from
the repository; the spec describes it as splitting a document into
ordered, possibly overlapping substrings. -/
def chunkStep (size overlap : Nat) : Nat := size - overlap

/-- Modelled from the spec: number of chunks produced for a document of
`n` characters.  A document no longer than the chunk size yields exactly
one chunk; otherwise one chunk per stride until the end is covered. -/
def numChunks (n size overlap : Nat) : Nat :=
  if n ≤ size then 1
  else 1 + (n - size + chunkStep size overlap - 1) / chunkStep size overlap

/-- Modelled from the spec: the start position of chunk `i`. -/
def chunkStart (size overlap i : Nat) : Nat := i * chunkStep size overlap

/-- Modelled from the spec: the (exclusive) end position of chunk `i` of
a document of `n` characters. -/
def chunkEnd (n size overlap i : Nat) : Nat :=
  min (chunkStart size overlap i + size) n

/-- Modelled from the spec: the chunker.  Splits a document (its
character list) into ordered, overlapping substrings, each of length at
most `size`, consecutive chunks sharing up to `overlap` characters. -/
def splitText (doc : List Char) (size overlap : Nat) : List (List Char) :=
  (List.range (numChunks doc.length size overlap)).map
    (fun i => (doc.drop (chunkStart size overlap i)).take size)

/-- The vector index.  Its third-party internals are out of scope: it is
identified by the chunk set it was built from at startup. -/
structure Docsearch where
  chunks : List (List Char)

/-- `initialize_embeddings_and_docsearch` (src/main.py lines 27-76):
each loaded document (basename, text body) is split with its resolved
configuration, and the index is built only when the accumulated split
list is nonempty; otherwise the global `docsearch` stays `None`. -/
def initialize_embeddings_and_docsearch (docs : List (String × List Char)) :
    Option Docsearch :=
  let allSplits :=
    (docs.map (fun d => splitText d.2 (getChunkSize d.1) (getChunkOverlap d.1))).flatten
  if allSplits.isEmpty then none else some ⟨allSplits⟩

/-- `generate_response` (src/main.py lines 80-119) without its caching
decorators.  The fallible pipeline (retriever construction, prompt
templating, remote model call) is abstracted into `invoke`, which
returns `Except.error e` when an exception with message `e` is raised.
The returned pair is (user-facing string, log lines): the `try/except`
catches every exception, logs it, and returns the fixed-marker error
string; when `docsearch` is unset the fixed sentinel is returned. -/
def generate_response (ds : Option Docsearch)
    (invoke : String → Except String String) (user_input : String) :
    String × List String :=
  match ds with
  | some _ =>
    match invoke user_input with
    | Except.ok response => (response, [])
    | Except.error e =>
        ("오류가 발생했습니다: " ++ e,
         ["An error occurred while generating response: " ++ e])
  | none => ("Docsearch is not initialized", [])

/-- The answer string of `generate_response`. -/
def computeAnswer (ds : Option Docsearch)
    (invoke : String → Except String String) (q : String) : String :=
  (generate_response ds invoke q).1

/-- Modelled from the spec: the memoization layer
(`functools.lru_cache(maxsize=100)`, src/main.py line 78), keyed by the
exact question text, capacity-bound at 100 entries, process-lifetime
scoped.  The cache is a most-recent-first association list; a hit moves
the entry to the front and performs no computation, a miss computes,
inserts at the front and evicts the least recent entry when full.  The
third component counts how many times `compute` ran (0 or 1). -/
def lruCall (cache : List (String × String)) (compute : String → String)
    (q : String) : String × List (String × String) × Nat :=
  match cache.find? (fun p => decide (p.1 = q)) with
  | some p => (p.2, (q, p.2) :: cache.filter (fun r => !decide (r.1 = q)), 0)
  | none =>
      let v := compute q
      if cache.length < 100 then (v, (q, v) :: cache, 1)
      else (v, (q, v) :: cache.dropLast, 1)

/-- A conversation turn of the session transcript
(`st.session_state.messages`). -/
structure Turn where
  role : String
  content : String

/-- The transcript handling of `main` (src/main.py lines 186-198): when
the response starts with the fixed error marker, only an error panel is
shown and the transcript is untouched; otherwise the user turn and the
assistant turn are appended. -/
def handleInput (messages : List Turn) (response user_input : String) :
    List Turn :=
  if strStartsWith response "오류가 발생했습니다:" then messages
  else messages ++ [⟨"user", user_input⟩, ⟨"SYU-GPT", response⟩]

/-- The per-question state of the running application: the index global,
the memoization cache, and the session transcript. -/
structure AppState where
  docsearch : Option Docsearch
  cache : List (String × String)
  messages : List Turn

/-- One iteration of the chat loop of `main` (src/main.py lines
181-198): the memoized generator is consulted and the transcript
updated; the index global is only read. -/
def stepApp (invoke : String → Except String String) (s : AppState)
    (q : String) : AppState :=
  let r := lruCall s.cache (computeAnswer s.docsearch invoke) q
  { docsearch := s.docsearch, cache := r.2.1,
    messages := handleInput s.messages r.1 q }

/-- The whole process: `initialize_embeddings_and_docsearch` runs once
at startup (src/main.py lines 175-176), then the chat loop consumes the
submitted questions in order. -/
def runApp (invoke : String → Except String String)
    (docs : List (String × List Char)) (qs : List String) : AppState :=
  qs.foldl (stepApp invoke)
    { docsearch := initialize_embeddings_and_docsearch docs,
      cache := [], messages := [] }

/-! ## Helper lemmas -/

lemma isPrefixOf_append (l₁ l₂ : List Char) :
    l₁.isPrefixOf (l₁ ++ l₂) = true := by
  induction l₁ with
  | nil => simp [List.isPrefixOf]
  | cons a as ih => simp [List.isPrefixOf, ih]

lemma strStartsWith_errorString (e : String) :
    strStartsWith ("오류가 발생했습니다: " ++ e) "오류가 발생했습니다:" = true := by
  have hsp : "오류가 발생했습니다: ".data = "오류가 발생했습니다:".data ++ [' '] := by
    decide
  simp only [strStartsWith, String.data_append, hsp, List.append_assoc]
  exact isPrefixOf_append _ _

lemma length_filter_lt_of_find? (q : String) (p : String × String) :
    ∀ l : List (String × String),
      l.find? (fun r => decide (r.1 = q)) = some p →
      (l.filter (fun r => !decide (r.1 = q))).length < l.length := by
  intro l
  induction l with
  | nil => intro h; simp at h
  | cons a tl ih =>
    intro h
    by_cases ha : a.1 = q
    · have : (fun r : String × String => !decide (r.1 = q)) a = false := by
        simp [ha]
      simp only [List.filter_cons, this]
      exact Nat.lt_succ_of_le (List.length_filter_le _ _)
    · have hpa : ¬ ((fun r : String × String => decide (r.1 = q)) a = true) := by
        simp [ha]
      rw [List.find?_cons_of_neg (p := fun r : String × String => decide (r.1 = q))
        tl hpa] at h
      have : (fun r : String × String => !decide (r.1 = q)) a = true := by
        simp [ha]
      simp only [List.filter_cons, this, List.length_cons]
      exact Nat.succ_lt_succ (ih h)

lemma lruCall_cache_length (cache : List (String × String))
    (compute : String → String) (q : String) (h : cache.length ≤ 100) :
    ((lruCall cache compute q).2.1).length ≤ 100 := by
  unfold lruCall
  cases hfind : cache.find? (fun p => decide (p.1 = q)) with
  | some p =>
    simp only [List.length_cons]
    have := length_filter_lt_of_find? q p cache hfind
    omega
  | none =>
    by_cases hlen : cache.length < 100
    · simp only [hlen, if_true, List.length_cons]
      omega
    · simp only [hlen, if_false, List.length_cons, List.length_dropLast]
      omega

lemma foldl_stepApp_docsearch (invoke : String → Except String String) :
    ∀ (qs : List String) (s : AppState),
      (qs.foldl (stepApp invoke) s).docsearch = s.docsearch := by
  intro qs
  induction qs with
  | nil => intro s; rfl
  | cons q qs ih =>
    intro s
    rw [List.foldl_cons, ih]
    rfl

lemma foldl_stepApp_cache_le (invoke : String → Except String String) :
    ∀ (qs : List String) (s : AppState), s.cache.length ≤ 100 →
      ((qs.foldl (stepApp invoke) s).cache).length ≤ 100 := by
  intro qs
  induction qs with
  | nil => intro s hs; exact hs
  | cons q qs ih =>
    intro s hs
    rw [List.foldl_cons]
    exact ih _ (lruCall_cache_length _ _ _ hs)

/-! ## Claims -/

/-- C2: for every question text, when the vector index was never built
(the `docsearch` global is unset), `generate_response` returns the fixed
"not initialized" sentinel string, logs nothing, and — being a total
function — does not raise. -/
theorem generate_response_not_initialized
    (invoke : String → Except String String) (q : String) :
    generate_response none invoke q = ("Docsearch is not initialized", []) :=
  rfl

/-- C1: for every question, if an exception is raised inside the
generation pipeline (retrieval, templating or the remote call, modelled
by `invoke` returning an error), `generate_response` catches it, logs
the underlying message, and returns a string beginning with the fixed
marker "오류가 발생했습니다:" instead of raising. -/
theorem generate_response_catches_errors (ds : Docsearch)
    (invoke : String → Except String String) (q e : String)
    (h : invoke q = Except.error e) :
    strStartsWith (generate_response (some ds) invoke q).1
        "오류가 발생했습니다:" = true ∧
    (generate_response (some ds) invoke q).2
      = ["An error occurred while generating response: " ++ e] := by
  constructor
  · simp only [generate_response, h]
    exact strStartsWith_errorString e
  · simp [generate_response, h]

theorem generate_response_catches_errors_witness :
    ((fun _ : String => (Except.error "boom" : Except String String)) "hi"
        = Except.error "boom") ∧
    (strStartsWith (generate_response (some ⟨[]⟩)
        (fun _ => Except.error "boom") "hi").1 "오류가 발생했습니다:" = true ∧
     (generate_response (some ⟨[]⟩) (fun _ => Except.error "boom") "hi").2
       = ["An error occurred while generating response: " ++ "boom"]) :=
  ⟨rfl, generate_response_catches_errors ⟨[]⟩
    (fun _ => Except.error "boom") "hi" "boom" rfl⟩

/-- C3: for every question whose generation failed (the returned string
begins with the fixed error marker), the main loop leaves the session
transcript unmodified: neither a user turn nor an assistant turn is
appended. -/
theorem transcript_unchanged_on_error (msgs : List Turn) (resp q : String)
    (h : strStartsWith resp "오류가 발생했습니다:" = true) :
    handleInput msgs resp q = msgs := by
  simp [handleInput, h]

theorem transcript_unchanged_on_error_witness :
    (strStartsWith "오류가 발생했습니다: boom" "오류가 발생했습니다:" = true) ∧
    handleInput [] "오류가 발생했습니다: boom" "q" = [] :=
  ⟨by decide,
   transcript_unchanged_on_error [] "오류가 발생했습니다: boom" "q"
     (by decide)⟩

/-- C4: submitting the identical question text a second time returns
the identical answer string as the first submission, and the second
submission performs no retrieval and no remote model call (the run
counter of the memoized computation is 0 on the repeat). -/
theorem memoized_repeat_no_remote_call (cache : List (String × String))
    (ds : Option Docsearch) (invoke : String → Except String String)
    (q : String) :
    (lruCall (lruCall cache (computeAnswer ds invoke) q).2.1
        (computeAnswer ds invoke) q).1
      = (lruCall cache (computeAnswer ds invoke) q).1 ∧
    (lruCall (lruCall cache (computeAnswer ds invoke) q).2.1
        (computeAnswer ds invoke) q).2.2 = 0 := by
  have hfront : ∀ (v : String) (rest : List (String × String)),
      lruCall ((q, v) :: rest) (computeAnswer ds invoke) q
        = (v, (q, v) :: ((q, v) :: rest).filter (fun r => !decide (r.1 = q)), 0) := by
    intro v rest
    unfold lruCall
    rw [List.find?_cons_of_pos]
    simp
  unfold lruCall
  cases hfind : cache.find? (fun p => decide (p.1 = q)) with
  | some p => simp [hfront p.2]
  | none =>
    by_cases hlen : cache.length < 100
    · simp [hlen, hfront]
    · simp [hlen, hfront]

/-- C5: a document whose base filename has no entry in the static
configuration table resolves exactly the default pair: chunk size 1500
and overlap 300. -/
theorem default_chunk_config (name : String) (h : configLookup name = none) :
    getChunkSize name = 1500 ∧ getChunkOverlap name = 300 := by
  simp [getChunkSize, getChunkOverlap, h]

theorem default_chunk_config_witness :
    (configLookup "unknown.txt" = none) ∧
    (getChunkSize "unknown.txt" = 1500 ∧ getChunkOverlap "unknown.txt" = 300) :=
  ⟨by decide, default_chunk_config "unknown.txt" (by decide)⟩

/-- C6: for every document and every (chunk size, overlap) pair with
overlap strictly below the chunk size, no produced chunk is longer than
the chunk size, and any two consecutive chunks overlap — measured as the
document positions covered by both, the end of chunk `i` minus the start
of chunk `i+1` — by at most the configured overlap. -/
theorem chunk_length_and_overlap_bounds (doc : List Char)
    (size overlap : Nat) (h : overlap < size) :
    (∀ c ∈ splitText doc size overlap, c.length ≤ size) ∧
    (∀ i, i + 1 < numChunks doc.length size overlap →
      chunkEnd doc.length size overlap i - chunkStart size overlap (i + 1)
        ≤ overlap) := by
  constructor
  · intro c hc
    simp only [splitText, List.mem_map, List.mem_range] at hc
    obtain ⟨i, _, rfl⟩ := hc
    rw [List.length_take]
    exact min_le_left _ _
  · intro i _
    have hend : chunkEnd doc.length size overlap i
        ≤ chunkStart size overlap i + size := min_le_left _ _
    have hmul : chunkStart size overlap (i + 1)
        = chunkStart size overlap i + chunkStep size overlap := by
      simp [chunkStart, Nat.succ_mul]
    have hst : chunkStep size overlap = size - overlap := rfl
    omega

theorem chunk_length_and_overlap_bounds_witness :
    ((2 : Nat) < 5) ∧
    ((∀ c ∈ splitText (List.replicate 8 'a') 5 2, c.length ≤ 5) ∧
     (∀ i, i + 1 < numChunks (List.replicate 8 'a').length 5 2 →
       chunkEnd (List.replicate 8 'a').length 5 2 i - chunkStart 5 2 (i + 1)
         ≤ 2)) :=
  ⟨by decide, chunk_length_and_overlap_bounds (List.replicate 8 'a') 5 2
    (by decide)⟩

/-- C7: for a single corpus file named "도서관 data.txt" of 2500
characters, the configuration resolves to chunk size 2000 and overlap
300, chunking yields exactly 2 chunks, and the second chunk starts
within the last 300 characters of the first (which spans positions 0 to
2000). -/
theorem library_file_two_chunks (doc : List Char) (h : doc.length = 2500) :
    getChunkSize "도서관 data.txt" = 2000 ∧
    getChunkOverlap "도서관 data.txt" = 300 ∧
    (splitText doc 2000 300).length = 2 ∧
    2000 - 300 ≤ chunkStart 2000 300 1 ∧ chunkStart 2000 300 1 < 2000 := by
  refine ⟨by decide, by decide, ?_, by decide, by decide⟩
  simp only [splitText, List.length_map, List.length_range, h]
  decide

theorem library_file_two_chunks_witness :
    ((List.replicate 2500 'a').length = 2500) ∧
    (getChunkSize "도서관 data.txt" = 2000 ∧
     getChunkOverlap "도서관 data.txt" = 300 ∧
     (splitText (List.replicate 2500 'a') 2000 300).length = 2 ∧
     2000 - 300 ≤ chunkStart 2000 300 1 ∧ chunkStart 2000 300 1 < 2000) :=
  ⟨by rw [List.length_replicate],
   library_file_two_chunks (List.replicate 2500 'a') (by rw [List.length_replicate])⟩

/-- C8: the vector index is built exactly once per process lifetime from
the startup-time corpus and is read-only thereafter: after any sequence
of submitted questions, the index global still equals the one
`initialize_embeddings_and_docsearch` built at startup. -/
theorem docsearch_built_once_read_only
    (invoke : String → Except String String)
    (docs : List (String × List Char)) (qs : List String) :
    (runApp invoke docs qs).docsearch
      = initialize_embeddings_and_docsearch docs := by
  unfold runApp
  rw [foldl_stepApp_docsearch]

/-- C9: for every sequence of submitted questions, the memoization cache
keyed by exact question text never holds more than its fixed maximum of
100 entries. -/
theorem cache_bounded_by_100 (invoke : String → Except String String)
    (docs : List (String × List Char)) (qs : List String) :
    ((runApp invoke docs qs).cache).length ≤ 100 := by
  unfold runApp
  exact foldl_stepApp_cache_le invoke qs _ (by simp)

/-- C10: the "not initialized" sentinel does not begin with the error
marker "오류가 발생했습니다:", so the UI shell classifies it as a
successful answer: it is rendered as an assistant message and both the
user turn and the sentinel are appended to the session transcript. -/
theorem sentinel_counts_as_success (msgs : List Turn) (q : String) :
    strStartsWith "Docsearch is not initialized" "오류가 발생했습니다:" = false ∧
    handleInput msgs "Docsearch is not initialized" q
      = msgs ++ [⟨"user", q⟩, ⟨"SYU-GPT", "Docsearch is not initialized"⟩] := by
  have hc : strStartsWith "Docsearch is not initialized" "오류가 발생했습니다:"
      = false := by decide
  exact ⟨hc, by simp [handleInput, hc]⟩

end SYUGPT
